import Mathlib

/-!
Shallow embedding of the teaching-shop repository: Django models
(Product, Review, ProductView), the two handwritten endpoints
(`record_view`, `get_analytics`), the Review creation path, the
ReviewSerializer and list endpoint, and the React frontend rendering
(Products page, CategorySection, ProductCard, ReviewsSection stars).
Database state is explicit; machine integers are Nat/Int.
-/

/-- The Product model. Its field list is not itself under src (the model
body is elided there), so the fields follow the spec's data model:
name, description, price, image reference, category -- plus the
auto primary key `id`. `price` is modelled as an integer amount; no
claim depends on it. -/
structure Product where
  id : Nat
  name : String
  description : String
  price : Int
  imageUrl : String
  category : String
deriving DecidableEq, Repr

/-- The Review model (src/unnamed/part_002, Task 2): ForeignKey to
Product, author name, integer rating carrying MinValueValidator(1) and
MaxValueValidator(5), free-text comment, auto_now_add timestamp, plus
the auto primary key. `product` stores the referenced Product id. -/
structure Review where
  id : Nat
  product : Nat
  author : String
  rating : Int
  comment : String
  created_at : Nat
deriving DecidableEq, Repr

/-- The ProductView model (src/unnamed/part_001, Task 2): ForeignKey to
Product and an auto_now_add timestamp. `product` stores the referenced
Product id. -/
structure ProductView where
  product : Nat
  viewed_at : Nat
deriving DecidableEq, Repr

/-- The stored database state: the three tables, the auto-id counters
for the two models whose ids the claims mention, and a clock supplying
auto_now_add timestamps. -/
structure DB where
  products : List Product
  reviews : List Review
  views : List ProductView
  nextProductId : Nat
  nextReviewId : Nat
  now : Nat
deriving DecidableEq, Repr

/-- An HTTP response as the handwritten endpoints build it: a status
code and a flat JSON object rendered as key/value pairs. -/
structure HttpResponse where
  status : Nat
  body : List (String × String)
deriving DecidableEq, Repr

/-- `Product.objects.get(id=product_id)`: the product with the given
primary key, if any. -/
def getProduct (db : DB) (product_id : Nat) : Option Product :=
  db.products.find? (fun p => p.id = product_id)

/-- `record_view` (src/unnamed/part_001, lines 112-119): fetch the
product by id; on success create one ProductView referencing it and
answer `{"status": "recorded"}`; on Product.DoesNotExist answer 404
with `{"error": "Product not found"}`. Returns the response and the
new database state. -/
def record_view (db : DB) (product_id : Nat) : HttpResponse × DB :=
  match getProduct db product_id with
  | some p =>
      (⟨200, [("status", "recorded")]⟩,
       { db with views := db.views ++ [⟨p.id, db.now⟩], now := db.now + 1 })
  | none => (⟨404, [("error", "Product not found")]⟩, db)

/-- The number of ProductView rows whose foreign key references the
given product id: what `Count('views')` computes per product. -/
def viewCount (db : DB) (pid : Nat) : Nat :=
  (db.views.filter (fun v => v.product = pid)).length

/-- One record of the analytics response: `.values('id', 'name',
'view_count')` keeps exactly these three fields. -/
structure AnalyticsRecord where
  id : Nat
  name : String
  view_count : Nat
deriving DecidableEq, Repr

/-- `get_analytics` (src/unnamed/part_001, lines 122-127):
`Product.objects.annotate(view_count=Count('views')).values('id',
'name', 'view_count')` -- one record per product in the Product table,
zero-view products included, each reduced to id, name, view_count. -/
def get_analytics (db : DB) : List AnalyticsRecord :=
  db.products.map (fun p => ⟨p.id, p.name, viewCount db p.id⟩)

/-- A sample database used by the concrete witnesses. -/
def sampleProduct : Product :=
  ⟨1, "Bavoir etoile", "Un bavoir", 12, "img1.jpg", "bavoirs"⟩

/-- A second sample product, without any recorded view. -/
def sampleProduct2 : Product :=
  ⟨2, "Doudou lapin", "Un doudou", 20, "img2.jpg", "doudous"⟩

/-- A sample stored review. -/
def sampleReview : Review :=
  ⟨1, 1, "Alice", 4, "Tres bien", 10⟩

/-- Sample state: two products, one review, one view of product 1. -/
def sampleDB : DB :=
  ⟨[sampleProduct, sampleProduct2], [sampleReview], [⟨1, 5⟩], 3, 2, 11⟩

/-- C1: for every product p in the database, the analytics response
contains the record for p whose view_count is the number of
ProductView rows referencing p, and every record of the response is
the id/name/view_count triple of some stored product (the response
carries exactly these three fields, by the type of its records). -/
theorem get_analytics_view_count (db : DB) (p : Product)
    (hp : p ∈ db.products) :
    (⟨p.id, p.name,
       (db.views.filter (fun v => v.product = p.id)).length⟩ :
        AnalyticsRecord) ∈ get_analytics db ∧
    ∀ rec ∈ get_analytics db, ∃ q ∈ db.products,
      rec = ⟨q.id, q.name, viewCount db q.id⟩ := by
  constructor
  · exact List.mem_map.mpr ⟨p, hp, rfl⟩
  · intro rec hrec
    rcases List.mem_map.mp hrec with ⟨q, hq, hrep⟩
    exact ⟨q, hq, hrep.symm⟩

/-- Witness for C1 at the sample database. -/
theorem get_analytics_view_count_witness :
    (⟨1, "Bavoir etoile",
       (sampleDB.views.filter (fun v => v.product = 1)).length⟩ :
        AnalyticsRecord) ∈ get_analytics sampleDB ∧
    ∀ rec ∈ get_analytics sampleDB, ∃ q ∈ sampleDB.products,
      rec = ⟨q.id, q.name, viewCount sampleDB q.id⟩ :=
  get_analytics_view_count sampleDB sampleProduct (by decide)

/-- C2: recording a view for a product id that matches no stored
product answers HTTP 404 with the fixed body
`{"error": "Product not found"}` and leaves the database unchanged. -/
theorem record_view_not_found (db : DB) (pid : Nat)
    (h : ∀ p ∈ db.products, p.id ≠ pid) :
    record_view db pid = (⟨404, [("error", "Product not found")]⟩, db) := by
  have hfind : getProduct db pid = none := by
    apply List.find?_eq_none.mpr
    intro p hp
    simpa using h p hp
  simp [record_view, hfind]

/-- Witness for C2: product id 99 matches nothing in the sample. -/
theorem record_view_not_found_witness :
    record_view sampleDB 99 =
      (⟨404, [("error", "Product not found")]⟩, sampleDB) :=
  record_view_not_found sampleDB 99 (by decide)

/-- C4: recording a view for an existing product answers
`{"status": "recorded"}`, appends exactly one ProductView row
referencing that product, leaves the Product and Review tables and
every pre-existing ProductView row unchanged, and hence raises that
product's view count by one while every other product's count is
unchanged. -/
theorem record_view_found (db : DB) (pid : Nat) (p : Product)
    (hfind : getProduct db pid = some p) :
    (record_view db pid).1 = ⟨200, [("status", "recorded")]⟩ ∧
    (record_view db pid).2.products = db.products ∧
    (record_view db pid).2.reviews = db.reviews ∧
    (record_view db pid).2.views = db.views ++ [⟨p.id, db.now⟩] ∧
    ∀ q : Nat, viewCount (record_view db pid).2 q =
      viewCount db q + (if q = pid then 1 else 0) := by
  have hid : p.id = pid := by
    have := List.find?_some hfind
    simpa using this
  refine ⟨by simp [record_view, hfind], by simp [record_view, hfind],
    by simp [record_view, hfind], by simp [record_view, hfind], ?_⟩
  intro q
  simp only [record_view, hfind, viewCount, List.filter_append,
    List.length_append]
  by_cases hq : q = pid
  · subst hq
    simp [hid]
  · have : (decide ((⟨p.id, db.now⟩ : ProductView).product = q)) = false := by
      simp [hid]
      exact fun hc => hq hc.symm
    simp [List.filter, this, hq]

/-- Witness for C4 at the sample database and product 2. -/
theorem record_view_found_witness :
    (record_view sampleDB 2).1 = ⟨200, [("status", "recorded")]⟩ ∧
    (record_view sampleDB 2).2.products = sampleDB.products ∧
    (record_view sampleDB 2).2.reviews = sampleDB.reviews ∧
    (record_view sampleDB 2).2.views =
      sampleDB.views ++ [⟨sampleProduct2.id, sampleDB.now⟩] ∧
    ∀ q : Nat, viewCount (record_view sampleDB 2).2 q =
      viewCount sampleDB q + (if q = 2 then 1 else 0) :=
  record_view_found sampleDB 2 sampleProduct2 (by decide)

/-- C8: the analytics response has one record per stored product, and
a product referenced by no ProductView row still contributes its
record, with view_count = 0. -/
theorem get_analytics_zero_views (db : DB) :
    (get_analytics db).length = db.products.length ∧
    ∀ p ∈ db.products, (∀ v ∈ db.views, v.product ≠ p.id) →
      (⟨p.id, p.name, 0⟩ : AnalyticsRecord) ∈ get_analytics db := by
  constructor
  · simp [get_analytics]
  · intro p hp hnov
    have hcount : viewCount db p.id = 0 := by
      simp only [viewCount, List.length_eq_zero, List.filter_eq_nil_iff]
      intro v hv
      simpa using hnov v hv
    have : (⟨p.id, p.name, viewCount db p.id⟩ : AnalyticsRecord) ∈
        get_analytics db := List.mem_map.mpr ⟨p, hp, rfl⟩
    rwa [hcount] at this

/-- Witness for C8: product 2 has no views in the sample database. -/
theorem get_analytics_zero_views_witness :
    (get_analytics sampleDB).length = sampleDB.products.length ∧
    (⟨2, "Doudou lapin", 0⟩ : AnalyticsRecord) ∈ get_analytics sampleDB :=
  ⟨(get_analytics_zero_views sampleDB).1,
   (get_analytics_zero_views sampleDB).2 sampleProduct2 (by decide)
     (by decide)⟩

/-- The data a client supplies when creating a Review (every Review
field except the auto primary key and the auto_now_add timestamp). -/
structure ReviewInput where
  product : Nat
  author : String
  rating : Int
  comment : String
deriving DecidableEq, Repr

/-- The rating field's validators (src/unnamed/part_002, line 55):
MinValueValidator(1) and MaxValueValidator(5). -/
def ratingValid (r : Int) : Bool :=
  decide (1 ≤ r) && decide (r ≤ 5)

/-- The data a client supplies when creating a Product via admin or
the ProductViewSet POST (every field except the auto primary key). -/
structure ProductInput where
  name : String
  description : String
  price : Int
  imageUrl : String
  category : String
deriving DecidableEq, Repr

/-- Review creation as performed by both specified paths (the admin
form and the API POST through ReviewViewSet): Django runs the model's
field validators -- here `ratingValid`, declared on the rating field in
src/unnamed/part_002 -- and the foreign-key existence check before
inserting; an invalid submission inserts nothing. Returns the created
row, if any, and the new state. -/
def createReview (db : DB) (input : ReviewInput) : Option Review × DB :=
  if ratingValid input.rating && (getProduct db input.product).isSome then
    let r : Review := ⟨db.nextReviewId, input.product, input.author,
      input.rating, input.comment, db.now⟩
    (some r, { db with reviews := db.reviews ++ [r],
                       nextReviewId := db.nextReviewId + 1,
                       now := db.now + 1 })
  else (none, db)

/-- Product creation via admin or the ProductViewSet POST: insert a
row with the next auto id. -/
def createProduct (db : DB) (input : ProductInput) : Option Product × DB :=
  let p : Product := ⟨db.nextProductId, input.name, input.description,
    input.price, input.imageUrl, input.category⟩
  (some p, { db with products := db.products ++ [p],
                     nextProductId := db.nextProductId + 1 })

/-- The specified REST surface and business rules: product creation
(`POST /api/products/`), review creation (`POST /api/reviews/` or the
admin form), view recording (`POST /api/products/<id>/view/`), and the
read-only endpoints (`GET` product list/detail, review list/detail,
`GET /api/analytics/`), which do not touch the stored state. -/
inductive Op where
  | createProduct (input : ProductInput)
  | createReview (input : ReviewInput)
  | recordView (pid : Nat)
  | readProducts
  | readReviews
  | readAnalytics
deriving DecidableEq, Repr

/-- The state transition of one specified operation. -/
def applyOp (db : DB) (op : Op) : DB :=
  match op with
  | .createProduct input => (createProduct db input).2
  | .createReview input => (createReview db input).2
  | .recordView pid => (record_view db pid).2
  | .readProducts => db
  | .readReviews => db
  | .readAnalytics => db

/-- Running a sequence of specified operations. -/
def runOps (db : DB) (ops : List Op) : DB :=
  ops.foldl applyOp db

/-- Every stored review's rating lies in [1, 5]. -/
def reviewRatingsOK (db : DB) : Prop :=
  ∀ r ∈ db.reviews, 1 ≤ r.rating ∧ r.rating ≤ 5

/-- C5: no specified operation updates or deletes a stored record:
each of the three tables after any specified operation is the old
table with zero or more rows appended, so every previously stored
Product, Review and ProductView row is still present, unchanged and in
place. -/
theorem applyOp_append_only (db : DB) (op : Op) :
    (∃ tp, (applyOp db op).products = db.products ++ tp) ∧
    (∃ tr, (applyOp db op).reviews = db.reviews ++ tr) ∧
    (∃ tv, (applyOp db op).views = db.views ++ tv) := by
  cases op with
  | createProduct input =>
      exact ⟨⟨_, rfl⟩, ⟨[], by simp [applyOp, createProduct]⟩,
        ⟨[], by simp [applyOp, createProduct]⟩⟩
  | createReview input =>
      by_cases h : (ratingValid input.rating &&
          (getProduct db input.product).isSome) = true
      · exact ⟨⟨[], by simp [applyOp, createReview, h]⟩,
          ⟨[⟨db.nextReviewId, input.product, input.author, input.rating,
             input.comment, db.now⟩], by simp [applyOp, createReview, h]⟩,
          ⟨[], by simp [applyOp, createReview, h]⟩⟩
      · exact ⟨⟨[], by simp [applyOp, createReview, h]⟩,
          ⟨[], by simp [applyOp, createReview, h]⟩,
          ⟨[], by simp [applyOp, createReview, h]⟩⟩
  | recordView pid =>
      cases hfind : getProduct db pid with
      | some p =>
          exact ⟨⟨[], by simp [applyOp, record_view, hfind]⟩,
            ⟨[], by simp [applyOp, record_view, hfind]⟩,
            ⟨[⟨p.id, db.now⟩], by simp [applyOp, record_view, hfind]⟩⟩
      | none =>
          exact ⟨⟨[], by simp [applyOp, record_view, hfind]⟩,
            ⟨[], by simp [applyOp, record_view, hfind]⟩,
            ⟨[], by simp [applyOp, record_view, hfind]⟩⟩
  | readProducts => exact ⟨⟨[], by simp [applyOp]⟩, ⟨[], by simp [applyOp]⟩,
      ⟨[], by simp [applyOp]⟩⟩
  | readReviews => exact ⟨⟨[], by simp [applyOp]⟩, ⟨[], by simp [applyOp]⟩,
      ⟨[], by simp [applyOp]⟩⟩
  | readAnalytics => exact ⟨⟨[], by simp [applyOp]⟩, ⟨[], by simp [applyOp]⟩,
      ⟨[], by simp [applyOp]⟩⟩

/-- One step preserves the rating invariant (helper for C3). -/
theorem applyOp_ratings (db : DB) (op : Op) (h : reviewRatingsOK db) :
    reviewRatingsOK (applyOp db op) := by
  cases op with
  | createReview input =>
      by_cases hv : (ratingValid input.rating &&
          (getProduct db input.product).isSome) = true
      · intro r hr
        simp only [applyOp, createReview, hv, if_true, List.mem_append,
          List.mem_singleton] at hr
        rcases hr with hr | hr
        · exact h r hr
        · subst hr
          have : ratingValid input.rating = true :=
            (Bool.and_eq_true _ _).mp hv |>.1
          simp only [ratingValid, Bool.and_eq_true, decide_eq_true_eq]
            at this
          exact this
      · intro r hr
        simp only [applyOp, createReview, hv, if_false] at hr
        exact h r hr
  | createProduct input => intro r hr; exact h r (by
      simpa [applyOp, createProduct] using hr)
  | recordView pid =>
      intro r hr
      rcases (applyOp_append_only db (.recordView pid)).2.1 with ⟨tr, htr⟩
      rcases hfind : getProduct db pid with _ | p
      · exact h r (by simpa [applyOp, record_view, hfind] using hr)
      · exact h r (by simpa [applyOp, record_view, hfind] using hr)
  | readProducts => exact h
  | readReviews => exact h
  | readAnalytics => exact h

/-- C3: every Review stored through the specified creation paths has a
rating in [1, 5]: if every stored review's rating is in range, then
after any sequence of specified operations every stored review's
rating is still in range (so from an empty store, every review ever
stored is in range), and a successful creation returns a row whose
rating is in range. -/
theorem runOps_ratings (db : DB) (ops : List Op) (h : reviewRatingsOK db) :
    reviewRatingsOK (runOps db ops) ∧
    ∀ input r, (createReview (runOps db ops) input).1 = some r →
      1 ≤ r.rating ∧ r.rating ≤ 5 := by
  have hrun : reviewRatingsOK (runOps db ops) := by
    induction ops generalizing db with
    | nil => exact h
    | cons op rest ih =>
        exact ih (applyOp db op) (applyOp_ratings db op h)
  refine ⟨hrun, ?_⟩
  intro input r hr
  by_cases hv : (ratingValid input.rating &&
      (getProduct (runOps db ops) input.product).isSome) = true
  · simp only [createReview, hv, if_true, Option.some.injEq] at hr
    have : ratingValid input.rating = true :=
      (Bool.and_eq_true _ _).mp hv |>.1
    simp only [ratingValid, Bool.and_eq_true, decide_eq_true_eq] at this
    rw [← hr]
    exact this
  · simp [createReview, hv] at hr

/-- Witness for C3: from the empty store, after creating a product and
a review, every stored review is in range. -/
theorem runOps_ratings_witness :
    reviewRatingsOK (runOps ⟨[], [], [], 1, 1, 0⟩
      [Op.createProduct ⟨"P", "d", 5, "i", "bavoirs"⟩,
       Op.createReview ⟨1, "Bob", 5, "top"⟩]) :=
  (runOps_ratings ⟨[], [], [], 1, 1, 0⟩
    [Op.createProduct ⟨"P", "d", 5, "i", "bavoirs"⟩,
     Op.createReview ⟨1, "Bob", 5, "top"⟩] (by simp [reviewRatingsOK])).1

/-- One serialized review: `fields = '__all__'` on the Review model
yields exactly id, product, author, rating, comment, created_at --
the field names the frontend Review interface declares. -/
structure SerializedReview where
  id : Nat
  product : Nat
  author : String
  rating : Int
  comment : String
  created_at : Nat
deriving DecidableEq, Repr

/-- ReviewSerializer (src/unnamed/part_002, Task 5): each Review row
mapped to its six model fields. -/
def serializeReview (r : Review) : SerializedReview :=
  ⟨r.id, r.product, r.author, r.rating, r.comment, r.created_at⟩

/-- The reviews list endpoint (`GET /api/reviews/` via ReviewViewSet,
`queryset = Review.objects.all()`): every stored review, serialized. -/
def listReviews (db : DB) : List SerializedReview :=
  db.reviews.map serializeReview

/-- C6: the reviews list endpoint returns as many records as there are
stored reviews, every stored review appears serialized with its six
fields id, product, author, rating, comment, created_at (the exact
field set of `SerializedReview`), and every returned record is the
serialization of some stored review. -/
theorem listReviews_complete (db : DB) :
    (listReviews db).length = db.reviews.length ∧
    (∀ r ∈ db.reviews,
      (⟨r.id, r.product, r.author, r.rating, r.comment, r.created_at⟩ :
        SerializedReview) ∈ listReviews db) ∧
    ∀ s ∈ listReviews db, ∃ r ∈ db.reviews, s = serializeReview r := by
  refine ⟨by simp [listReviews], ?_, ?_⟩
  · intro r hr
    exact List.mem_map.mpr ⟨r, hr, rfl⟩
  · intro s hs
    rcases List.mem_map.mp hs with ⟨r, hr, hrs⟩
    exact ⟨r, hr, hrs.symm⟩

/-- Witness for C6 at the sample database. -/
theorem listReviews_complete_witness :
    (⟨1, 1, "Alice", 4, "Tres bien", 10⟩ : SerializedReview) ∈
      listReviews sampleDB :=
  (listReviews_complete sampleDB).2.1 sampleReview (by decide)

/-- A rendered ProductCard element: React's key (`product.id`) and the
product passed as props (the card displays its image, name,
description and price). -/
structure ProductCardElem where
  key : Nat
  product : Product
deriving DecidableEq, Repr

/-- ProductCard (src/frontend/src/components/ProductCard.tsx): renders
one product, keyed by its id. -/
def ProductCard (p : Product) : ProductCardElem :=
  ⟨p.id, p⟩

/-- A rendered CategorySection: the heading text (the category name)
and the list of product cards. -/
structure RenderedSection where
  heading : String
  cards : List ProductCardElem
deriving DecidableEq, Repr

/-- CategorySection (src/frontend/src/components/ProductCard.tsx,
lines 35-53): returns null when `products.length === 0`, otherwise a
section whose h2 shows the category and whose grid holds one
ProductCard per product, in order. -/
def CategorySection (category : String) (products : List Product) :
    Option RenderedSection :=
  if products.length = 0 then none
  else some ⟨category, products.map ProductCard⟩

/-- The fixed category list of the Products page
(src/unnamed/part_000, line 4). -/
def CATEGORIES : List String :=
  ["bavoirs", "doudous", "couvertures"]

/-- The Products page (src/unnamed/part_000): one CategorySection per
fixed category, fed with the products filtered to that category. -/
def Products (products : List Product) : List (Option RenderedSection) :=
  CATEGORIES.map (fun category =>
    CategorySection category
      (products.filter (fun product => product.category = category)))

/-- How many times a card occurs in one (possibly null) section. -/
def cardCount (sec : Option RenderedSection) (card : ProductCardElem) : Nat :=
  match sec with
  | none => 0
  | some s => s.cards.count card

/-- How many times a card occurs on the whole rendered page. -/
def pageCardCount (page : List (Option RenderedSection))
    (card : ProductCardElem) : Nat :=
  (page.map (fun sec => cardCount sec card)).sum

/-- ProductCard keeps the whole product in its props, so distinct
products render distinct elements. -/
theorem productCard_injective : Function.Injective ProductCard := by
  intro a b hab
  exact congrArg ProductCardElem.product hab

/-- The card count of one page section, as a function of the input
product list (helper for the Products-page theorem). -/
theorem cardCount_section (c : String) (ps : List Product) (p : Product) :
    cardCount (CategorySection c (ps.filter (fun q => q.category = c)))
      (ProductCard p) = if p.category = c then ps.count p else 0 := by
  by_cases hemp : (ps.filter (fun q => q.category = c)).length = 0
  · have hnil : ps.filter (fun q => q.category = c) = [] :=
      List.length_eq_zero.mp hemp
    simp only [CategorySection, hemp, if_pos rfl, cardCount]
    by_cases hc : p.category = c
    · have hnot : p ∉ ps := by
        intro hin
        have : p ∈ ps.filter (fun q => q.category = c) :=
          List.mem_filter.mpr ⟨hin, by simp [hc]⟩
        simp [hnil] at this
      simp [hc, List.count_eq_zero.mpr hnot]
    · simp [hc]
  · have hsome : CategorySection c (ps.filter (fun q => q.category = c)) =
        some ⟨c, (ps.filter (fun q => q.category = c)).map ProductCard⟩ := by
      simp [CategorySection, hemp]
    rw [hsome]
    simp only [cardCount]
    rw [List.count_map_of_injective _ ProductCard productCard_injective]
    by_cases hc : p.category = c
    · rw [if_pos hc]
      exact List.count_filter (by simp [hc])
    · rw [if_neg hc]
      apply List.count_eq_zero.mpr
      intro hin
      exact hc (by simpa using (List.mem_filter.mp hin).2)

/-- C7: on the Products page, a product of one of the three fixed
categories is rendered as exactly one ProductCard, and any section
containing its card is the section headed by its own category; a
product whose category is outside the fixed set appears on the page
zero times. -/
theorem products_page_rendering (ps : List Product) (p : Product)
    (hp : p ∈ ps) (hnd : ps.Nodup) :
    pageCardCount (Products ps) (ProductCard p) =
      (if p.category ∈ CATEGORIES then 1 else 0) ∧
    ∀ sec ∈ Products ps, ∀ s, sec = some s → ProductCard p ∈ s.cards →
      s.heading = p.category := by
  constructor
  · have hone : ps.count p = 1 := List.count_eq_one_of_mem hnd hp
    simp only [pageCardCount, Products, CATEGORIES, List.map_map,
      List.map_cons, List.map_nil, List.sum_cons, List.sum_nil,
      Function.comp]
    rw [cardCount_section, cardCount_section, cardCount_section, hone]
    by_cases h1 : p.category = "bavoirs"
    · simp [h1]
    · by_cases h2 : p.category = "doudous"
      · simp [h1, h2]
      · by_cases h3 : p.category = "couvertures"
        · simp [h1, h2, h3]
        · simp [h1, h2, h3]
  · intro sec hsec s hs hcard
    rcases List.mem_map.mp hsec with ⟨c, hc, hrep⟩
    rw [← hrep] at hs
    by_cases hemp : (ps.filter (fun q => q.category = c)).length = 0
    · simp [CategorySection, hemp] at hs
    · have hsome : CategorySection c (ps.filter (fun q => q.category = c)) =
          some ⟨c, (ps.filter (fun q => q.category = c)).map ProductCard⟩ :=
        by simp [CategorySection, hemp]
      rw [hsome, Option.some.injEq] at hs
      rw [← hs] at hcard
      simp only [List.mem_map] at hcard
      rcases hcard with ⟨q, hq, hqp⟩
      have hqe : q = p := productCard_injective hqp
      subst hqe
      have : q.category = c := by
        simpa using (List.mem_filter.mp hq).2
      rw [← hs, ← this]

/-- Witness for C7: the sample products are distinct; the first one,
of category "bavoirs", is rendered exactly once. -/
theorem products_page_rendering_witness :
    pageCardCount (Products [sampleProduct, sampleProduct2])
        (ProductCard sampleProduct) =
      (if sampleProduct.category ∈ CATEGORIES then 1 else 0) ∧
    ∀ sec ∈ Products [sampleProduct, sampleProduct2], ∀ s, sec = some s →
      ProductCard sampleProduct ∈ s.cards →
      s.heading = sampleProduct.category :=
  products_page_rendering [sampleProduct, sampleProduct2] sampleProduct
    (by decide) (by decide)

/-- C9: CategorySection returns null on an empty product list (so an
empty category contributes no heading and no markup), and on a
non-empty list renders the section whose heading is the category and
whose cards are exactly one ProductCard per product, in order. -/
theorem categorySection_null_or_cards (c : String) (ps : List Product) :
    (ps = [] → CategorySection c ps = none) ∧
    (ps ≠ [] → CategorySection c ps = some ⟨c, ps.map ProductCard⟩) := by
  constructor
  · intro h
    simp [CategorySection, h]
  · intro h
    have : ps.length ≠ 0 := by
      simpa [List.length_eq_zero] using h
    simp [CategorySection, this]

/-- Witness for C9: both branches at concrete inputs. -/
theorem categorySection_null_or_cards_witness :
    CategorySection "doudous" [] = none ∧
    CategorySection "doudous" [sampleProduct2] =
      some ⟨"doudous", [ProductCard sampleProduct2]⟩ :=
  ⟨(categorySection_null_or_cards "doudous" []).1 rfl,
   (categorySection_null_or_cards "doudous" [sampleProduct2]).2
     (by simp)⟩

/-- The filled star character of ReviewsSection. -/
def filledStar : Char := '★'

/-- The empty star character of ReviewsSection. -/
def emptyStar : Char := '☆'

/-- JavaScript String.prototype.repeat: a negative count throws a
RangeError (modelled as none); otherwise the character repeated
`count` times. -/
def repeatChar (ch : Char) (count : Int) : Option (List Char) :=
  if count < 0 then none
  else some (List.replicate count.toNat ch)

/-- The star line of ReviewsSection (src/unnamed/part_002, line 193):
`'★'.repeat(review.rating)` followed by `'☆'.repeat(5 - review.rating)`,
none when either repeat throws. -/
def starDisplay (rating : Int) : Option (List Char) :=
  match repeatChar filledStar rating, repeatChar emptyStar (5 - rating) with
  | some a, some b => some (a ++ b)
  | _, _ => none

/-- C10: for an integer rating r with 1 <= r <= 5 both repeat counts r
and 5 - r are non-negative, so neither repeat throws, and the rendered
stars are exactly r filled stars followed by 5 - r empty stars, five
characters in total. -/
theorem starDisplay_in_range (r : Int) (h1 : 1 ≤ r) (h2 : r ≤ 5) :
    0 ≤ r ∧ 0 ≤ 5 - r ∧
    starDisplay r = some (List.replicate r.toNat filledStar ++
      List.replicate (5 - r).toNat emptyStar) ∧
    ∀ s, starDisplay r = some s → s.length = 5 := by
  have hr : ¬ r < 0 := by omega
  have hr5 : ¬ (5 - r) < 0 := by omega
  have heq : starDisplay r = some (List.replicate r.toNat filledStar ++
      List.replicate (5 - r).toNat emptyStar) := by
    simp [starDisplay, repeatChar, hr, hr5]
  refine ⟨by omega, by omega, heq, ?_⟩
  intro s hs
  rw [heq] at hs
  cases hs
  simp only [List.length_append, List.length_replicate]
  omega

/-- Witness for C10 at rating 4. -/
theorem starDisplay_in_range_witness :
    starDisplay 4 = some (List.replicate (4 : Int).toNat filledStar ++
      List.replicate ((5 : Int) - 4).toNat emptyStar) ∧
    ∀ s, starDisplay 4 = some s → s.length = 5 :=
  ⟨(starDisplay_in_range 4 (by decide) (by decide)).2.2.1,
   (starDisplay_in_range 4 (by decide) (by decide)).2.2.2⟩
